import Mathlib

/-!
Verification of the PDF field-extraction engine ("excel_main 5.py" and the
older "excel_main.py") against its natural-language specification.

The embedding models the program's pure data flow.  A `Document` is the
abstraction of an opened PDF as seen through the text/table backend: a list
of pages, each carrying its plain text and its ordered list of extracted
tables.  String manipulation from the Python source (split, strip, lower,
substring search, int/float parsing) is embedded at the character-list
level so every definition is executable.  Exceptions raised by the Python
code are modelled with `Except String`, the error string naming the Python
exception class; the per-rule `try/except` of the batch driver maps any
error to an absent value.  Regular-expression search (`re.search`) is
modelled for metacharacter-free literal patterns: it returns the pattern
itself when it occurs as a substring of the text.  Similarity scoring
(`difflib.SequenceMatcher(...).ratio()`) is an external heuristic over two
strings; the embedding is parametric in the scoring function
`score : String → String → Rat`, which is all the verified properties
depend on.
-/

set_option linter.unusedVariables false

namespace PdfExtract

/-! ### Character-level string primitives (Python `str` operations) -/

/-- Python whitespace characters recognised by `str.strip()` (ASCII subset). -/
def isPyWs (c : Char) : Bool :=
  c == ' ' || c == '\t' || c == '\n' || c == '\r' || c == '\x0b' || c == '\x0c'

/-- `str.strip()`: drop whitespace from both ends. -/
def chTrim (l : List Char) : List Char :=
  ((l.dropWhile isPyWs).reverse.dropWhile isPyWs).reverse

/-- Does `l` start with `needle`? -/
def chStarts : List Char → List Char → Bool
  | [], _ => true
  | _ :: _, [] => false
  | a :: as, b :: bs => a == b && chStarts as bs

/-- Python `needle in hay` substring test. -/
def chHasSub (needle : List Char) : List Char → Bool
  | [] => needle.isEmpty
  | c :: rest => chStarts needle (c :: rest) || chHasSub needle rest

/-- The remainder of `hay` after the first occurrence of `needle`
(`hay.split(needle, 1)[1]`); `none` when `needle` does not occur. -/
def chDropAfter (needle : List Char) : List Char → Option (List Char)
  | [] => if needle.isEmpty then some [] else none
  | c :: rest =>
    if chStarts needle (c :: rest) then some ((c :: rest).drop needle.length)
    else chDropAfter needle rest

/-- Python `str.split(sep)` for a one-character separator. -/
def chSplitOn (sep : Char) : List Char → List (List Char)
  | [] => [[]]
  | c :: rest =>
    if c == sep then [] :: chSplitOn sep rest
    else
      match chSplitOn sep rest with
      | [] => [[c]]
      | g :: gs => (c :: g) :: gs

/-- Lower-casing used by the case-insensitive heading search. -/
def chToLower (l : List Char) : List Char :=
  l.map Char.toLower

/-- Case-insensitive substring test, `sub.lower() in text.lower()`. -/
def strContainsCI (text sub : String) : Bool :=
  chHasSub (chToLower sub.toList) (chToLower text.toList)

/-- `sep.join(parts)`. -/
def joinSep (sep : String) : List String → String
  | [] => ""
  | [s] => s
  | s :: rest => s ++ sep ++ joinSep sep rest

/-- Value of a nonempty all-digit character list; `none` otherwise. -/
def digitsVal (l : List Char) : Option Nat :=
  if l.isEmpty then none
  else if l.all Char.isDigit then
    some (l.foldl (fun a c => a * 10 + (c.toNat - 48)) 0)
  else none

/-- Python `int(s)` on a string: strip, optional sign, decimal digits;
raises `ValueError` otherwise. -/
def pyIntCh (l : List Char) : Except String Int :=
  match chTrim l with
  | '-' :: rest =>
    match digitsVal rest with
    | some n => .ok (-(n : Int))
    | none => .error "ValueError"
  | '+' :: rest =>
    match digitsVal rest with
    | some n => .ok (n : Int)
    | none => .error "ValueError"
  | rest =>
    match digitsVal rest with
    | some n => .ok (n : Int)
    | none => .error "ValueError"

/-- Magnitude of a decimal literal (digits with at most one dot, at least
one digit), truncated toward zero. -/
def floatMag (l : List Char) : Except String Nat :=
  if l.all (fun c => c.isDigit || c == '.') && decide (l.count '.' ≤ 1)
      && l.any Char.isDigit then
    .ok ((l.takeWhile (fun c => !(c == '.'))).foldl
      (fun a c => a * 10 + (c.toNat - 48)) 0)
  else .error "ValueError"

/-- Python `int(float(s))`: parse a decimal-formatted number and truncate
toward zero; raises `ValueError` on malformed input. -/
def pyFloatTruncCh (l : List Char) : Except String Int :=
  match chTrim l with
  | '-' :: rest => (floatMag rest).map (fun n => -(n : Int))
  | '+' :: rest => (floatMag rest).map (fun n => (n : Int))
  | rest => (floatMag rest).map (fun n => (n : Int))

/-! ### Data model -/

/-- A table cell as delivered by pdfplumber: a string or absent (`None`). -/
abbrev Cell := Option String

/-- A table: a grid of optional string cells. -/
abbrev Table := List (List Cell)

/-- One page of an opened PDF, as seen through the text/table backend. -/
structure Page where
  text : String
  tables : List Table
  deriving DecidableEq

/-- An opened PDF document. -/
structure Document where
  pages : List Page
  deriving DecidableEq

/-- `str(cell)` for a cell just read from a DataFrame: `None` prints as
the string `"None"`. -/
def cellStr : Cell → String
  | some s => s
  | none => "None"

/-- Python/pandas positional index resolution: a negative index counts from
the end; out-of-range (either side) is `none` (an `IndexError`). -/
def pyIdx (n : Nat) (i : Int) : Option Nat :=
  if 0 ≤ i then
    if i < (n : Int) then some i.toNat else none
  else
    if 0 ≤ (n : Int) + i then some ((n : Int) + i).toNat else none

/-- `table.iloc[r, c]`: the cell at positional indices `r`, `c`, or `none`
when the access raises `IndexError`. -/
def ilocCell (t : Table) (r c : Int) : Option Cell :=
  match pyIdx t.length r with
  | none => none
  | some ri =>
    match t.get? ri with
    | none => none
    | some row =>
      match pyIdx row.length c with
      | none => none
      | some ci => row.get? ci

/-! ### Source embedding: "excel_main 5.py" (the newer script) -/

/-- Inner loop of `find_heading_page`: index of the first page whose text
contains the heading, case-insensitively; `-1` when none does. -/
def findHeadingPageAux (heading : String) (i : Nat) : List Page → Int
  | [] => -1
  | p :: ps =>
    if strContainsCI p.text heading then (i : Int)
    else findHeadingPageAux heading (i + 1) ps

/-- `find_heading_page`: zero-based index of the first page containing the
heading (case-insensitive substring test), or `-1`. -/
def find_heading_page (doc : Document) (heading : String) : Int :=
  findHeadingPageAux heading 0 doc.pages

/-- `extract_all_tables`: per-page table map, keeping only pages with at
least one table (the `if tables:` truthiness test). -/
def extract_all_tables (doc : Document) : List (Nat × List Table) :=
  (doc.pages.enum.filter (fun p => !p.2.tables.isEmpty)).map
    (fun p => (p.1, p.2.tables))

/-- Lookup in the per-page table map. -/
def pageTablesGet (d : List (Nat × List Table)) (k : Nat) : Option (List Table) :=
  (d.find? (fun p => p.1 == k)).map Prod.snd

/-- `doc[page_number].get_text()`. -/
def pageTextAt (doc : Document) (i : Nat) : String :=
  match doc.pages.get? i with
  | some p => p.text
  | none => ""

/-- `extract_tables_from_pdf`: the flattened table catalog, a dict from
1-based table index (first-seen order across pages) to the table. -/
def extract_tables_from_pdf (doc : Document) : List (Nat × Table) :=
  ((doc.pages.map Page.tables).flatten).enum.map (fun p => (p.1 + 1, p.2))

/-- Lookup in the flattened table catalog (`tables.get(n)`). -/
def dictGet (d : List (Nat × Table)) (k : Int) : Option Table :=
  (d.find? (fun p => ((p.1 : Int)) == k)).map Prod.snd

/-- `extract_text_from_pdf`: page texts joined with a newline, stripped. -/
def extract_text_from_pdf (doc : Document) : String :=
  String.mk (chTrim (joinSep "\n" (doc.pages.map Page.text)).toList)

/-- `table_to_string` inside `get_best_matching_table`: join each
non-empty row's cells with spaces (absent cells as empty strings), and the
rows with newlines. -/
def table_to_string (t : Table) : String :=
  joinSep "\n" ((t.filter (fun row => !row.isEmpty)).map
    (fun row => joinSep " " (row.map (fun c => c.getD ""))))

/-- The context text around the heading:
`"\n".join(page_text.split(heading, 1)[1].strip().split('\n')[:max_lines])`.
`none` models the `IndexError` when the heading does not occur literally in
the page text. -/
def context_of (page_text heading : String) (max_lines : Nat) : Option String :=
  (chDropAfter heading.toList page_text.toList).map (fun rest =>
    joinSep "\n" (((chSplitOn '\n' (chTrim rest)).take max_lines).map String.mk))

/-- The selection loop of `get_best_matching_table`: running best score
(initially `0`) and best table (initially `None`), updated on a strict
`score > best_score` comparison. -/
def bestLoop (f : Table → Rat) : List Table → Rat → Option Table → Option Table
  | [], _, best => best
  | t :: ts, bestScore, best =>
    if bestScore < f t then bestLoop f ts (f t) (some t)
    else bestLoop f ts bestScore best

/-- `get_best_matching_table`, parametric in the similarity scoring
function applied to the context text and each candidate's flattened
string. -/
def get_best_matching_table (score : String → String → Rat) (tables : List Table)
    (page_text heading : String) : Except String (Option Table) :=
  match context_of page_text heading 10 with
  | none => .error "IndexError"
  | some ctx => .ok (bestLoop (fun t => score ctx (table_to_string t)) tables 0 none)

/-- Cell normalization applied to a multi-candidate best match: embedded
newlines become spaces, absent cells become empty strings. -/
def normalize_table (t : Table) : Table :=
  t.map (fun row => row.map (fun c => some ((c.getD "").replace "\n" " ")))

/-- `extract_table_by_heading`: anchor-based table resolution.  A page with
exactly one table returns it directly; several tables go through the
matcher (and the `if best_table:` truthiness test, so an empty best table
counts as no match). -/
def extract_table_by_heading (score : String → String → Rat) (doc : Document)
    (heading : String) : Except String (Option Table) :=
  let pn := find_heading_page doc heading
  if pn = -1 then .ok none
  else
    match pageTablesGet (extract_all_tables doc) pn.toNat with
    | none => .ok none
    | some tables =>
      if tables.length = 1 then .ok (some (tables.headD []))
      else
        match get_best_matching_table score tables (pageTextAt doc pn.toNat) heading with
        | .error e => .error e
        | .ok none => .ok none
        | .ok (some t) =>
          if t.isEmpty then .ok none else .ok (some (normalize_table t))

/-- Python truthiness of the optional identifier (`if identifier:`):
present and non-empty. -/
def optTruthy : Option String → Bool
  | some s => !s.isEmpty
  | none => false

/-- The identifier scan of `table_extraction_regex`: the first table in
the flattened catalog whose first row (`tt.iloc[0]`) contains the
identifier as a literal cell value. -/
def scanByIdentifier (tables : List (Nat × Table)) (ident : String) : Option Table :=
  (tables.find? (fun p => (p.2.headD []).contains (some ident))).map Prod.snd

/-- Source-table resolution inside `table_extraction_regex` (lines
162-173 of the newer script): with a truthy identifier, scan first rows
and on failure fall back to anchor-based resolution; otherwise look the
table number up in the flattened catalog (`int(None)` raising `TypeError`
when both are absent). -/
def resolveSourceTable (score : String → String → Rat) (doc : Document)
    (table_no : Option Int) (identifier : Option String) :
    Except String (Option Table) :=
  let tables := extract_tables_from_pdf doc
  let scanned : Except String (Option Table) :=
    if optTruthy identifier then .ok (scanByIdentifier tables (identifier.getD ""))
    else
      match table_no with
      | some n => .ok (dictGet tables n)
      | none => .error "TypeError"
  match scanned with
  | .error e => .error e
  | .ok t0 =>
    if optTruthy identifier && t0.isNone then
      extract_table_by_heading score doc (identifier.getD "")
    else .ok t0

/-- Coordinate-spec parsing of `table_extraction_regex`: a spec with a
comma is split on commas, each piece stripped and parsed with `int`; a
single value is parsed with `int(float(...))`; every 1-based index becomes
0-based. -/
def parseSpec (s : String) : Except String (List Int) :=
  if s.toList.contains ',' then
    (chSplitOn ',' s.toList).mapM (fun p => (pyIntCh (chTrim p)).map (fun n => n - 1))
  else
    (pyFloatTruncCh s.toList).map (fun n => [n - 1])

/-- `get_cell_value`: `str(table.iloc[row, col])`, with `IndexError`
caught and turned into an empty string. -/
def get_cell_value (t : Table) (r c : Int) : String :=
  match ilocCell t r c with
  | some cell => cellStr cell
  | none => ""

/-- The row-major cross product of selected cells
(`[get_cell_value(row, col) for row in row_indices for col in col_indices]`). -/
def cells_of (t : Table) (ris cis : List Int) : List String :=
  ris.flatMap (fun r => cis.map (fun c => get_cell_value t r c))

/-- `table_extraction_regex`: resolve the source table, return `None` when
it is missing and no identifier was given, parse the coordinate specs,
then read the cross product of cells (an unresolved table with an
identifier reaches `table.iloc` on `None`, an `AttributeError`). -/
def table_extraction_regex (score : String → String → Rat) (doc : Document)
    (table_no : Option Int) (row_nums col_nums : String)
    (identifier : Option String) : Except String (Option String) :=
  match resolveSourceTable score doc table_no identifier with
  | .error e => .error e
  | .ok tableOpt =>
    if tableOpt.isNone && identifier.isNone then .ok none
    else
      match parseSpec row_nums with
      | .error e => .error e
      | .ok ris =>
        match parseSpec col_nums with
        | .error e => .error e
        | .ok cis =>
          match tableOpt with
          | none => .error "AttributeError"
          | some t => .ok (some (joinSep "\n" (cells_of t ris cis)))

/-- `re.search(pattern, text)` followed by `.group()`, modelled for
metacharacter-free literal patterns: the first match of such a pattern is
the pattern itself when it occurs as a substring. -/
def reSearch (pattern text : String) : Option String :=
  if chHasSub pattern.toList text.toList then some pattern else none

/-- One rule row of the config sheet; `none` models an absent value
(a missing column or a `NaN` cell). -/
structure ConfigRow where
  filePath : String
  fieldName : String
  textExtraction : Option String
  tableNo : Option Int
  rowNo : Option String
  colNo : Option String
  identifier : Option String
  deriving DecidableEq

/-- One output row of the result sheet. -/
structure OutRow where
  fieldName : String
  filePath : String
  value : Option String
  deriving DecidableEq

/-- `pdf_map.get(filename)`. -/
def pyDictGet (m : List (String × String)) (k : String) : Option String :=
  (m.find? (fun p => p.1 == k)).map Prod.snd

/-- The body of the per-rule `try` block of `process_config_rows` (newer
script): choose table extraction when a table number or identifier plus
both coordinates are present and no text pattern is, whole-document
pattern search when a pattern is present, and nothing otherwise. -/
def ruleAttempt (score : String → String → Rat) (fs : String → Document)
    (file_path : String) (row : ConfigRow) : Except String (Option String) :=
  if (row.tableNo.isSome || optTruthy row.identifier) && row.rowNo.isSome
      && row.colNo.isSome && !row.textExtraction.isSome then
    table_extraction_regex score (fs file_path) row.tableNo
      (row.rowNo.getD "") (row.colNo.getD "") row.identifier
  else if row.textExtraction.isSome then
    .ok (reSearch (row.textExtraction.getD "") (extract_text_from_pdf (fs file_path)))
  else .ok none

/-- The per-rule resolution including the rule-boundary `except Exception`:
any raised error surfaces as an absent value. -/
def resolveRule (score : String → String → Rat) (fs : String → Document)
    (file_path : String) (row : ConfigRow) : Option String :=
  match ruleAttempt score fs file_path row with
  | .ok v => v
  | .error _ => none

/-- `process_config_rows` (newer script): per rule, look the filename up in
the registry; a missing (or falsy) path skips the rule, otherwise exactly
one output row is appended with the resolved value. -/
def process_config_rows (score : String → String → Rat) (fs : String → Document)
    (pdf_map : List (String × String)) : List ConfigRow → List OutRow
  | [] => []
  | row :: rest =>
    match pyDictGet pdf_map row.filePath with
    | none => process_config_rows score fs pdf_map rest
    | some p =>
      if p = "" then process_config_rows score fs pdf_map rest
      else
        { fieldName := row.fieldName, filePath := p,
          value := resolveRule score fs p row } ::
          process_config_rows score fs pdf_map rest

/-! ### Source embedding: "excel_main.py" (the older script) -/

/-- `extract_tables_from_pdf` of the older script: each raw table becomes
`pd.DataFrame(table[1:], columns=table[0])`, so the first row is consumed
as a header and positional indexing starts at the second raw row.  An
empty raw table raises inside the per-table `try` and is skipped without
consuming an index. -/
def extract_tables_from_pdf_v1 (doc : Document) : List (Nat × Table) :=
  (((doc.pages.map Page.tables).flatten).filterMap
    (fun t =>
      match t with
      | [] => none
      | _ :: rest => some rest)).enum.map (fun p => (p.1 + 1, p.2))

/-- The body of the per-rule `try` block of the older script's
`process_config_rows`: with table number and both coordinates present,
read the single cell and apply `re.search` of the text pattern to it
(raising `TypeError` when the cell is `None` or the pattern is absent);
otherwise fall back to whole-document pattern search. -/
def ruleAttempt_v1 (fs : String → Document) (file_path : String)
    (row : ConfigRow) : Except String (Option String) :=
  if row.tableNo.isSome && row.rowNo.isSome && row.colNo.isSome then
    match dictGet (extract_tables_from_pdf_v1 (fs file_path)) (row.tableNo.getD 0) with
    | none => .ok none
    | some t =>
      match pyIntCh (row.rowNo.getD "").toList with
      | .error e => .error e
      | .ok r =>
        match pyIntCh (row.colNo.getD "").toList with
        | .error e => .error e
        | .ok c =>
          match ilocCell t (r - 1) (c - 1) with
          | none => .error "IndexError"
          | some none => .error "TypeError"
          | some (some v) =>
            match row.textExtraction with
            | none => .error "TypeError"
            | some pat => .ok (reSearch pat v)
  else if row.textExtraction.isSome then
    .ok (reSearch (row.textExtraction.getD "") (extract_text_from_pdf (fs file_path)))
  else .ok none

/-- Per-rule resolution of the older script, including its rule-boundary
`except Exception`. -/
def resolveRule_v1 (fs : String → Document) (file_path : String)
    (row : ConfigRow) : Option String :=
  match ruleAttempt_v1 fs file_path row with
  | .ok v => v
  | .error _ => none

/-! ### Helper lemmas -/

/-- Running maximum of candidate scores over an initial value, mirroring
the `best_score` accumulator of the selection loop. -/
def maxScFrom (f : Table → Rat) (s : Rat) (l : List Table) : Rat :=
  l.foldr (fun t m => max (f t) m) s

theorem le_maxScFrom (f : Table → Rat) (s : Rat) (l : List Table) :
    s ≤ maxScFrom f s l := by
  induction l with
  | nil => simp [maxScFrom]
  | cons t ts ih =>
    simp only [maxScFrom, List.foldr] at *
    exact le_trans ih (le_max_right _ _)

theorem maxScFrom_init (f : Table → Rat) {a b : Rat} (h : b ≤ a)
    (l : List Table) : maxScFrom f a l = max a (maxScFrom f b l) := by
  induction l with
  | nil => simp [maxScFrom, max_eq_left h]
  | cons t ts ih =>
    simp only [maxScFrom, List.foldr] at *
    rw [ih, max_left_comm]

theorem bestLoop_eq (f : Table → Rat) (l : List Table) :
    ∀ (s : Rat) (b : Option Table),
      bestLoop f l s b =
        if maxScFrom f s l ≤ s then b
        else l.find? (fun t => decide (f t = maxScFrom f s l)) := by
  induction l with
  | nil => intro s b; simp [bestLoop, maxScFrom]
  | cons t ts ih =>
    intro s b
    have hM : maxScFrom f s (t :: ts) = max (f t) (maxScFrom f s ts) := rfl
    by_cases hlt : s < f t
    · have hMt : maxScFrom f (f t) ts = maxScFrom f s (t :: ts) := by
        rw [hM, maxScFrom_init f (le_of_lt hlt)]
      rw [show bestLoop f (t :: ts) s b = bestLoop f ts (f t) (some t) by
        simp [bestLoop, hlt]]
      rw [ih (f t) (some t), hMt]
      have hft : f t ≤ maxScFrom f s (t :: ts) := by rw [hM]; exact le_max_left _ _
      have hns : ¬ maxScFrom f s (t :: ts) ≤ s := fun hc =>
        absurd (lt_of_lt_of_le hlt (le_trans hft hc)) (lt_irrefl s)
      rw [if_neg hns]
      by_cases heq : maxScFrom f s (t :: ts) ≤ f t
      · have : f t = maxScFrom f s (t :: ts) := le_antisymm hft heq
        rw [if_pos heq]
        simp [List.find?, this]
      · have hne : ¬ f t = maxScFrom f s (t :: ts) := fun hc => heq (le_of_eq hc.symm)
        rw [if_neg heq]
        simp [List.find?, hne]
    · have hle : f t ≤ s := le_of_not_lt hlt
      have hM2 : maxScFrom f s (t :: ts) = maxScFrom f s ts := by
        rw [hM, max_eq_right (le_trans hle (le_maxScFrom f s ts))]
      rw [show bestLoop f (t :: ts) s b = bestLoop f ts s b by simp [bestLoop, hlt]]
      rw [ih s b, hM2]
      by_cases hc : maxScFrom f s ts ≤ s
      · rw [if_pos hc, if_pos hc]
      · have hne : ¬ f t = maxScFrom f s ts := fun he => hc (he ▸ hle)
        rw [if_neg hc, if_neg hc]
        simp [List.find?, hne]

theorem process_cons_found (score : String → String → Rat)
    (fs : String → Document) (pdf_map : List (String × String))
    (row : ConfigRow) (rest : List ConfigRow) (p : String)
    (hp : pyDictGet pdf_map row.filePath = some p) (hne : ¬ p = "") :
    process_config_rows score fs pdf_map (row :: rest) =
      { fieldName := row.fieldName, filePath := p,
        value := resolveRule score fs p row } ::
        process_config_rows score fs pdf_map rest := by
  simp only [process_config_rows]
  rw [hp]
  exact if_neg hne

theorem process_cons_missing (score : String → String → Rat)
    (fs : String → Document) (pdf_map : List (String × String))
    (row : ConfigRow) (rest : List ConfigRow)
    (hp : pyDictGet pdf_map row.filePath = none) :
    process_config_rows score fs pdf_map (row :: rest) =
      process_config_rows score fs pdf_map rest := by
  simp only [process_config_rows]
  rw [hp]

theorem process_cons_falsy (score : String → String → Rat)
    (fs : String → Document) (pdf_map : List (String × String))
    (row : ConfigRow) (rest : List ConfigRow)
    (hp : pyDictGet pdf_map row.filePath = some "") :
    process_config_rows score fs pdf_map (row :: rest) =
      process_config_rows score fs pdf_map rest := by
  simp only [process_config_rows]
  rw [hp]
  rfl

theorem cells_of_length (t : Table) (ris cis : List Int) :
    (cells_of t ris cis).length = ris.length * cis.length := by
  induction ris with
  | nil => simp [cells_of]
  | cons r rs ih =>
    simp only [cells_of, List.flatMap_cons, List.length_append, List.length_map,
      List.length_cons] at *
    rw [ih, Nat.succ_mul]
    omega

/-! ### Concrete fixtures used by the counterexamples and witnesses -/

/-- A degenerate scoring function (the claims proven with it never reach
the similarity comparison, or hold for every scoring function). -/
def score0 : String → String → Rat := fun _ _ => 0

/-- A one-cell table whose first row does not contain the identifier. -/
def T1 : Table := [[some "x"]]

/-- A document whose only page has one table and whose text does not
contain the anchor label. -/
def doc1 : Document := ⟨[⟨"nothing here", [T1]⟩]⟩

/-- A 3x2 table used for coordinate-resolution fixtures. -/
def TW : Table :=
  [[some "a", some "b"], [some "c", some "d"], [some "e", some "f"]]

/-- A document carrying the 3x2 fixture table. -/
def docW : Document := ⟨[⟨"w", [TW]⟩]⟩

/-- A document with a single one-cell table. -/
def docC : Document := ⟨[⟨"t", [[[some "a"]]]⟩]⟩

/-- A filesystem resolving every path to `docC`. -/
def fsC : String → Document := fun _ => docC

/-- A registry mapping `c.pdf` to its path. -/
def pmC : List (String × String) := [("c.pdf", "/d/c.pdf")]

/-- Two-row table for the dual-policy divergence. -/
def T9 : Table := [[some "A"], [some "B"]]

/-- Document whose text contains the pattern `NUM` and whose single table
does not. -/
def doc9 : Document := ⟨[⟨"hello NUM 7", [T9]⟩]⟩

/-- A filesystem resolving every path to `doc9`. -/
def fs9 : String → Document := fun _ => doc9

/-- A rule carrying both a table coordinate and a text pattern: the two
scripts resolve it through different strategies. -/
def rule9 : ConfigRow :=
  { filePath := "x.pdf", fieldName := "F", textExtraction := some "NUM",
    tableNo := some 1, rowNo := some "1", colNo := some "1", identifier := none }

/-- A rule whose filename is not registered. -/
def ruleB : ConfigRow :=
  { filePath := "missing.pdf", fieldName := "G", textExtraction := none,
    tableNo := none, rowNo := none, colNo := none, identifier := none }

/-- A rule whose row spec fails integer parsing. -/
def ruleC : ConfigRow :=
  { filePath := "c.pdf", fieldName := "H", textExtraction := none,
    tableNo := some 1, rowNo := some "x", colNo := some "1", identifier := none }

/-- A rule whose filename resolves and whose coordinates are plain. -/
def ruleA : ConfigRow :=
  { filePath := "c.pdf", fieldName := "Total", textExtraction := none,
    tableNo := some 1, rowNo := some "1", colNo := some "1", identifier := none }

/-- A rule whose comma-separated row spec contains a floating-point entry. -/
def rule10 : ConfigRow :=
  { filePath := "c.pdf", fieldName := "K", textExtraction := none,
    tableNo := some 1, rowNo := some "1.0,2", colNo := some "1", identifier := none }

/-- One-table page fixture for anchor-based resolution. -/
def T8 : Table := [[some "Z", some "Q"]]

/-- Document whose second page contains the heading (in capitals) and
exactly one table. -/
def doc8 : Document := ⟨[⟨"intro", []⟩, ⟨"THE HEADING page", [T8]⟩]⟩

/-- Scoring fixture that prefers the flattened string `a`. -/
def scoreW : String → String → Rat := fun _ t => if t = "a" then 1 else 0

/-- Candidate table flattening to `a`. -/
def Ta : Table := [[some "a"]]

/-- Candidate table flattening to `b`. -/
def Tb : Table := [[some "b"]]

/-- Does a rule's filename resolve to a truthy path in the registry
(`pdf_map.get(filename)` followed by the `if not file_path:` test)? -/
def resolvesInRegistry (pdf_map : List (String × String)) (row : ConfigRow) : Bool :=
  match pyDictGet pdf_map row.filePath with
  | none => false
  | some p => if p = "" then false else true

/-- The output row a rule contributes: `none` when its filename does not
resolve to a truthy path, otherwise exactly one row with the resolved
value. -/
def outRowOf (score : String → String → Rat) (fs : String → Document)
    (pdf_map : List (String × String)) (row : ConfigRow) : Option OutRow :=
  match pyDictGet pdf_map row.filePath with
  | none => none
  | some p =>
    if p = "" then none
    else some { fieldName := row.fieldName, filePath := p,
                value := resolveRule score fs p row }

/-! ### Claim C1 -/

/-- C1 counterexample: with identifier `ID` and table number `1`, the
identifier scan finds nothing, yet table-number lookup in the flattened
catalog would succeed (table 1 exists, with cell value `x`).  Contrary to
the claim, the resolver does not fall back to table-number lookup: it goes
straight to anchor-based resolution, which fails (the anchor is absent
from the document), and the rule ends in an `AttributeError` instead of
extracting `x`. -/
theorem C1_counterexample :
    scanByIdentifier (extract_tables_from_pdf doc1) "ID" = none ∧
    dictGet (extract_tables_from_pdf doc1) 1 = some T1 ∧
    get_cell_value T1 0 0 = "x" ∧
    table_extraction_regex score0 doc1 (some 1) "1" "1" (some "ID") =
      .error "AttributeError" := by
  exact ⟨rfl, rfl, rfl, rfl⟩

/-- C1 (amended): for every rule using the table strategy with a
non-absent (truthy) identifier, the Rule Resolver first scans the
document's flattened table catalog and uses the first table whose first
row contains the identifier as a literal cell value; if that scan finds
none it falls back directly to anchor-based resolution — table-number
lookup in the flattened catalog is used only when no identifier is given,
so the outcome with an identifier is independent of the table number. -/
theorem C1_resolution_order (score : String → String → Rat) (doc : Document)
    (tno tno2 : Option Int) (row_nums col_nums : String) (ident : String)
    (h : ¬ ident = "") :
    table_extraction_regex score doc tno row_nums col_nums (some ident) =
      table_extraction_regex score doc tno2 row_nums col_nums (some ident) ∧
    resolveSourceTable score doc tno (some ident) =
      (match scanByIdentifier (extract_tables_from_pdf doc) ident with
       | some t => .ok (some t)
       | none => extract_table_by_heading score doc ident) ∧
    (∀ n : Int, resolveSourceTable score doc (some n) none =
      .ok (dictGet (extract_tables_from_pdf doc) n)) := by
  have htr : optTruthy (some ident) = true := by
    have hie : ident.isEmpty = false := by
      rw [Bool.eq_false_iff]
      intro hc
      exact h ((String.isEmpty_iff ident).mp hc)
    simp [optTruthy, hie]
  have hrs : ∀ tn : Option Int, resolveSourceTable score doc tn (some ident) =
      (match scanByIdentifier (extract_tables_from_pdf doc) ident with
       | some t => .ok (some t)
       | none => extract_table_by_heading score doc ident) := by
    intro tn
    simp only [resolveSourceTable, htr, if_pos, Option.getD_some]
    cases hscan : scanByIdentifier (extract_tables_from_pdf doc) ident with
    | none => simp
    | some t => simp
  refine ⟨?_, hrs tno, fun n => rfl⟩
  unfold table_extraction_regex
  rw [hrs tno, hrs tno2]

/-- C1 witness: the amended statement instantiated at the counterexample
document with two different table numbers. -/
theorem C1_witness :
    ¬ "ID" = "" ∧
    (table_extraction_regex score0 doc1 (some 1) "1" "1" (some "ID") =
      table_extraction_regex score0 doc1 (some 2) "1" "1" (some "ID") ∧
    resolveSourceTable score0 doc1 (some 1) (some "ID") =
      (match scanByIdentifier (extract_tables_from_pdf doc1) "ID" with
       | some t => .ok (some t)
       | none => extract_table_by_heading score0 doc1 "ID") ∧
    (∀ n : Int, resolveSourceTable score0 doc1 (some n) none =
      .ok (dictGet (extract_tables_from_pdf doc1) n))) :=
  ⟨by decide,
   C1_resolution_order score0 doc1 (some 1) (some 2) "1" "1" "ID" (by decide)⟩

/-! ### Claim C2 -/

/-- C2 counterexample: with an empty document registry, a one-rule batch
produces zero result rows, not one per input rule. -/
theorem C2_counterexample :
    (process_config_rows score0 fsC [] [ruleB]).length ≠ [ruleB].length := by
  decide

/-- C2 (amended): for every input rule set and registry, the batch output
is exactly the in-order `filterMap` of the rules — one result row per rule
whose filename resolves to a truthy path in the registry and none for the
others — so the result count equals the number of resolving rules and the
output field names are the resolving rules' field names in input order;
a concrete mixed batch (one resolving rule, one unregistered, one failing)
yields exactly the two rows of its resolving rules, in order. -/
theorem C2_results_in_order (score : String → String → Rat)
    (fs : String → Document) (pdf_map : List (String × String))
    (rules : List ConfigRow) :
    process_config_rows score fs pdf_map rules =
      rules.filterMap (outRowOf score fs pdf_map) ∧
    (process_config_rows score fs pdf_map rules).map OutRow.fieldName =
      (rules.filter (resolvesInRegistry pdf_map)).map ConfigRow.fieldName ∧
    (process_config_rows score fs pdf_map rules).length =
      (rules.filter (resolvesInRegistry pdf_map)).length ∧
    process_config_rows score0 fsC pmC [ruleA, ruleB, ruleC] =
      [{ fieldName := "Total", filePath := "/d/c.pdf", value := some "a" },
       { fieldName := "H", filePath := "/d/c.pdf", value := none }] := by
  have hmain : ∀ rs : List ConfigRow,
      process_config_rows score fs pdf_map rs =
        rs.filterMap (outRowOf score fs pdf_map) ∧
      (process_config_rows score fs pdf_map rs).map OutRow.fieldName =
        (rs.filter (resolvesInRegistry pdf_map)).map ConfigRow.fieldName ∧
      (process_config_rows score fs pdf_map rs).length =
        (rs.filter (resolvesInRegistry pdf_map)).length := by
    intro rs
    induction rs with
    | nil => exact ⟨rfl, rfl, rfl⟩
    | cons row rest ih =>
      obtain ⟨ih1, ih2, ih3⟩ := ih
      cases hp : pyDictGet pdf_map row.filePath with
      | none =>
        rw [process_cons_missing score fs pdf_map row rest hp]
        have ho : outRowOf score fs pdf_map row = none := by
          simp [outRowOf, hp]
        have hres : resolvesInRegistry pdf_map row = false := by
          simp [resolvesInRegistry, hp]
        simp [List.filterMap_cons, List.filter_cons, ho, hres, ih1]
        rw [← ih1]
        exact ⟨ih2, ih3⟩
      | some p =>
        by_cases hpe : p = ""
        · subst hpe
          rw [process_cons_falsy score fs pdf_map row rest hp]
          have ho : outRowOf score fs pdf_map row = none := by
            simp [outRowOf, hp]
          have hres : resolvesInRegistry pdf_map row = false := by
            simp [resolvesInRegistry, hp]
          simp [List.filterMap_cons, List.filter_cons, ho, hres, ih1]
          rw [← ih1]
          exact ⟨ih2, ih3⟩
        · rw [process_cons_found score fs pdf_map row rest p hp hpe]
          have ho : outRowOf score fs pdf_map row =
              some { fieldName := row.fieldName, filePath := p,
                     value := resolveRule score fs p row } := by
            simp [outRowOf, hp, hpe]
          have hres : resolvesInRegistry pdf_map row = true := by
            simp [resolvesInRegistry, hp, hpe]
          simp [List.filterMap_cons, List.filter_cons, ho, hres, ih1]
          rw [← ih1]
          exact ⟨ih2, ih3⟩
  obtain ⟨h1, h2, h3⟩ := hmain rules
  exact ⟨h1, h2, h3, rfl⟩

/-! ### Claim C3 -/

/-- C3: any error raised while resolving a rule is caught at the rule
boundary and surfaces as an absent value in that rule's result row, and
the rest of the batch is processed exactly as it would be without that
rule — no failure propagates to another rule or aborts the batch. -/
theorem C3_failure_isolated (score : String → String → Rat)
    (fs : String → Document) (pdf_map : List (String × String))
    (row : ConfigRow) (rest : List ConfigRow) (p e : String)
    (hp : pyDictGet pdf_map row.filePath = some p) (hne : ¬ p = "")
    (he : ruleAttempt score fs p row = .error e) :
    process_config_rows score fs pdf_map (row :: rest) =
      { fieldName := row.fieldName, filePath := p, value := none } ::
        process_config_rows score fs pdf_map rest := by
  rw [process_cons_found score fs pdf_map row rest p hp hne]
  simp [resolveRule, he]

/-- C3 witness: a rule whose row spec raises `ValueError` still yields
exactly its own result row, with an absent value. -/
theorem C3_witness :
    pyDictGet pmC ruleC.filePath = some "/d/c.pdf" ∧
    ruleAttempt score0 fsC "/d/c.pdf" ruleC = .error "ValueError" ∧
    process_config_rows score0 fsC pmC [ruleC] =
      [{ fieldName := ruleC.fieldName, filePath := "/d/c.pdf", value := none }] := by
  refine ⟨rfl, rfl, ?_⟩
  exact C3_failure_isolated score0 fsC pmC ruleC [] "/d/c.pdf" "ValueError"
    rfl (by decide) rfl

/-! ### Claim C4 -/

/-- C4: on a successfully built context, the Table Matcher returns the
first candidate attaining the maximum similarity score when that maximum
is above `0` (strict comparison keeps the first-seen candidate on ties),
and returns none when the candidate list is empty or no candidate scores
above `0` (both cases make the running maximum collapse to the initial
`0`). -/
theorem C4_best_match_selection (score : String → String → Rat)
    (tables : List Table) (page_text heading ctx : String)
    (h : context_of page_text heading 10 = some ctx) :
    get_best_matching_table score tables page_text heading =
      .ok (if maxScFrom (fun t => score ctx (table_to_string t)) 0 tables ≤ 0 then none
           else tables.find? (fun t =>
             decide (score ctx (table_to_string t) =
               maxScFrom (fun t => score ctx (table_to_string t)) 0 tables))) := by
  unfold get_best_matching_table
  rw [h]
  exact congrArg Except.ok
    (bestLoop_eq (fun t => score ctx (table_to_string t)) tables 0 none)

/-- C4 witness: two candidates, the second scoring `1` and the first `0`;
the matcher selects according to the characterization. -/
theorem C4_witness :
    context_of "head tail" "head" 10 = some "tail" ∧
    get_best_matching_table scoreW [Tb, Ta] "head tail" "head" =
      .ok (if maxScFrom (fun t => scoreW "tail" (table_to_string t)) 0 [Tb, Ta] ≤ 0 then none
           else [Tb, Ta].find? (fun t =>
             decide (scoreW "tail" (table_to_string t) =
               maxScFrom (fun t => scoreW "tail" (table_to_string t)) 0 [Tb, Ta]))) :=
  ⟨by decide, C4_best_match_selection scoreW [Tb, Ta] "head tail" "head" "tail" (by decide)⟩

/-! ### Claim C5 -/

/-- C5: a comma-bearing spec is split on commas, each piece trimmed and
parsed as an integer; a single-value spec is parsed as a decimal-formatted
number truncated to an integer; each 1-based index becomes 0-based; and a
rule with a resolved table and successfully parsed specs extracts the
row-major cross product of the selected cells joined by newlines (the
`1,3` by `1,2` example yields the four cells in row-major order). -/
theorem C5_coordinate_resolution :
    parseSpec "1,3" = .ok [0, 2] ∧
    parseSpec "2" = .ok [1] ∧
    parseSpec " 1 , 3 " = .ok [0, 2] ∧
    parseSpec "2.9" = .ok [1] ∧
    cells_of TW [0, 2] [0, 1] = ["a", "b", "e", "f"] ∧
    ∀ (score : String → String → Rat) (doc : Document) (tno : Option Int)
      (rows cols : String) (ident : Option String) (t : Table)
      (ris cis : List Int),
      resolveSourceTable score doc tno ident = .ok (some t) →
      parseSpec rows = .ok ris → parseSpec cols = .ok cis →
      table_extraction_regex score doc tno rows cols ident =
        .ok (some (joinSep "\n" (cells_of t ris cis))) := by
  refine ⟨rfl, rfl, rfl, rfl, rfl, ?_⟩
  intro score doc tno rows cols ident t ris cis ht hr hc
  unfold table_extraction_regex
  rw [ht, hr, hc]
  rfl

/-- C5 witness: the cross-product rule instantiated on the 3x2 fixture
with specs `1,3` and `1,2`. -/
theorem C5_witness :
    resolveSourceTable score0 docW (some 1) none = .ok (some TW) ∧
    parseSpec "1,3" = .ok [0, 2] ∧
    parseSpec "1,2" = .ok [0, 1] ∧
    table_extraction_regex score0 docW (some 1) "1,3" "1,2" none =
      .ok (some (joinSep "\n" (cells_of TW [0, 2] [0, 1]))) := by
  refine ⟨rfl, rfl, rfl, ?_⟩
  exact C5_coordinate_resolution.2.2.2.2.2 score0 docW (some 1) "1,3" "1,2"
    none TW [0, 2] [0, 1] rfl rfl rfl

/-! ### Claim C6 -/

/-- C6: an out-of-range cell access yields an empty string for that cell
rather than an error, and the extracted cell list always has exactly
`len(rows) * len(cols)` entries. -/
theorem C6_out_of_range (t : Table) (r c : Int) (ris cis : List Int) :
    (ilocCell t r c = none → get_cell_value t r c = "") ∧
    (cells_of t ris cis).length = ris.length * cis.length := by
  constructor
  · intro h
    simp [get_cell_value, h]
  · exact cells_of_length t ris cis

/-- C6 witness: row index 5 is out of range for the 3-row fixture table,
the cell value is empty, and a 2x1 selection has 2 entries. -/
theorem C6_witness :
    ilocCell TW 5 0 = none ∧ get_cell_value TW 5 0 = "" ∧
    (cells_of TW [4, 9] [0]).length = [4, 9].length * [0].length :=
  ⟨by decide, (C6_out_of_range TW 5 0 [4, 9] [0]).1 (by decide),
   (C6_out_of_range TW 5 0 [4, 9] [0]).2⟩

/-! ### Claim C7 -/

/-- C7: a rule whose filename is not in the registry produces no output
row and the batch continues with the remaining rules, whereas a rule whose
filename resolves always produces exactly one row (its value possibly
absent). -/
theorem C7_missing_filename (score : String → String → Rat)
    (fs : String → Document) (pdf_map : List (String × String))
    (row : ConfigRow) (rest : List ConfigRow)
    (h : pyDictGet pdf_map row.filePath = none) :
    process_config_rows score fs pdf_map (row :: rest) =
      process_config_rows score fs pdf_map rest ∧
    ∀ (row2 : ConfigRow) (p : String),
      pyDictGet pdf_map row2.filePath = some p → ¬ p = "" →
      process_config_rows score fs pdf_map (row2 :: rest) =
        { fieldName := row2.fieldName, filePath := p,
          value := resolveRule score fs p row2 } ::
          process_config_rows score fs pdf_map rest := by
  refine ⟨process_cons_missing score fs pdf_map row rest h, ?_⟩
  intro row2 p hp hne
  exact process_cons_found score fs pdf_map row2 rest p hp hne

/-- C7 witness: the unregistered filename `missing.pdf` is skipped. -/
theorem C7_witness :
    pyDictGet pmC ruleB.filePath = none ∧
    process_config_rows score0 fsC pmC [ruleB] =
      process_config_rows score0 fsC pmC [] :=
  ⟨by decide, (C7_missing_filename score0 fsC pmC ruleB [] (by decide)).1⟩

/-! ### Claim C8 -/

/-- C8: when the anchor's page holds exactly one table, anchor-based
resolution returns that table directly; the statement holds for an
arbitrary scoring function, so the result does not depend on similarity
scoring or on the table's content. -/
theorem C8_single_table_direct (score : String → String → Rat)
    (doc : Document) (heading : String) (pn : Nat) (t : Table)
    (hpn : find_heading_page doc heading = (pn : Int))
    (ht : pageTablesGet (extract_all_tables doc) pn = some [t]) :
    extract_table_by_heading score doc heading = .ok (some t) := by
  unfold extract_table_by_heading
  rw [hpn]
  have hne : ¬ ((pn : Int) = -1) := by omega
  rw [if_neg hne]
  rw [Int.toNat_natCast pn, ht]
  simp

/-- C8 witness: the heading is found case-insensitively on the second
page, which has exactly one table, returned as-is. -/
theorem C8_witness :
    find_heading_page doc8 "heading" = ((1 : Nat) : Int) ∧
    pageTablesGet (extract_all_tables doc8) 1 = some [T8] ∧
    extract_table_by_heading score0 doc8 "heading" = .ok (some T8) :=
  ⟨by decide, by decide,
   C8_single_table_direct score0 doc8 "heading" 1 T8 (by decide) (by decide)⟩

/-! ### Claim C9 -/

/-- C9: the two rule-resolution implementations are not equivalent.  On a
rule carrying a table coordinate and a text pattern, the newer script
applies the pattern to the whole document text and extracts `NUM`, while
the older script applies the pattern to the single resolved table cell and
extracts nothing. -/
theorem C9_dual_policies_differ :
    resolveRule score0 fs9 "/d/x.pdf" rule9 = some "NUM" ∧
    resolveRule_v1 fs9 "/d/x.pdf" rule9 = none :=
  ⟨rfl, rfl⟩

/-! ### Claim C10 -/

/-- C10: a comma-separated coordinate spec containing a floating-point
entry fails integer parsing with a `ValueError` (while the same format in
a single-value spec parses), the error escapes `table_extraction_regex`
once a table has been resolved, and the rule boundary catches it so the
rule's result row carries an absent value. -/
theorem C10_float_in_comma_list (score : String → String → Rat)
    (doc : Document) (tno : Option Int) (ident : Option String)
    (t : Table) (cols : String)
    (ht : resolveSourceTable score doc tno ident = .ok (some t)) :
    parseSpec "1.0,2" = .error "ValueError" ∧
    parseSpec "2.0" = .ok [1] ∧
    table_extraction_regex score doc tno "1.0,2" cols ident =
      .error "ValueError" ∧
    ∀ (fs : String → Document) (pdf_map : List (String × String))
      (row : ConfigRow) (rest : List ConfigRow) (pth : String),
      pyDictGet pdf_map row.filePath = some pth → ¬ pth = "" →
      ruleAttempt score fs pth row = .error "ValueError" →
      process_config_rows score fs pdf_map (row :: rest) =
        { fieldName := row.fieldName, filePath := pth, value := none } ::
          process_config_rows score fs pdf_map rest := by
  refine ⟨rfl, rfl, ?_, ?_⟩
  · unfold table_extraction_regex
    rw [ht]
    rfl
  · intro fs pdf_map row rest pth hp hne he
    rw [process_cons_found score fs pdf_map row rest pth hp hne]
    simp [resolveRule, he]

/-- C10 witness: the rule with row spec `1.0,2` on the one-table document
fails with `ValueError` and still emits its result row with an absent
value. -/
theorem C10_witness :
    resolveSourceTable score0 docC (some 1) none = .ok (some [[some "a"]]) ∧
    ruleAttempt score0 fsC "/d/c.pdf" rule10 = .error "ValueError" ∧
    process_config_rows score0 fsC pmC [rule10] =
      [{ fieldName := rule10.fieldName, filePath := "/d/c.pdf", value := none }] := by
  refine ⟨rfl, rfl, ?_⟩
  exact (C10_float_in_comma_list score0 docC (some 1) none [[some "a"]] "1"
    rfl).2.2.2 fsC pmC rule10 [] "/d/c.pdf" rfl (by decide) rfl

end PdfExtract
